import Mathlib

/-!
Shallow embedding of the `tx-result` library (entry file and its code
dictionaries), together with theorems settling the specification claims.

The embedding mirrors the JavaScript source:
* the two code dictionaries (`codes.tx`, `codes.op`) become association lists;
* JavaScript objects probed for optional fields become structures of `Option`
  fields (`none` models an absent/`undefined` field);
* thrown exceptions become `Except` errors (`invalidResponseShape` models the
  `throw new Error("Not a Horizon txResponse")` branch, `typeError` models an
  unguarded property access on `undefined`);
* JavaScript truthiness of a string-valued field is `some s` with `s` nonempty.
-/

namespace TxResultSpec

/-! ## Code dictionaries (codes.js) -/

/-- Transaction codes table (`codes.tx`), keys as in the source
(the `tx_` prefix already stripped). -/
def txCodes : List (String × String) := [
  ("failed", "The transaction failed"),
  ("too_early", "The transaction is not valid yet"),
  ("too_late", "The transaction is not valid anymore"),
  ("missing_operation", "The transaction does not have any operation"),
  ("bad_seq", "The transaction sequence number is invalid"),
  ("bad_auth", "The transaction doesn\x27t have enough signatures"),
  ("insufficient_balance", "There are not enough funds to pay for the transaction fees"),
  ("no_account", "The source account does not exist"),
  ("insufficient_fee", "The transaction fees are too small"),
  ("bad_auth_extra", "The transaction has too many signatures"),
  ("internal_error", "An unknown error occurred"),
  ("success", "The transaction has been validated"),
  ("fee_bump_inner_success", "The fees have been bumped"),
  ("fee_bump_inner_failed", "The fees failed to get bumped")]

/-- Operation codes table (`codes.op`), keys as in the source
(the `op_` prefix already stripped). -/
def opCodes : List (String × String) := [
  ("success", "The operation has been validated"),
  ("not_supported", "This feature is not supported anymore"),
  ("malformed", "The operation has invalid inputs"),
  ("underfunded", "The source does not have enough funds"),
  ("low_reserve", "The source does not have enough funds to pay for reserve fee"),
  ("already_exist", "The destination account already exists"),
  ("src_no_trust", "The source does not trust this asset"),
  ("src_not_authorized", "The source is not authorized to send this asset"),
  ("no_destination", "The destination does not exist"),
  ("no_trust", "The destination does not trust this asset"),
  ("not_authorized", "The destination is not authorized to receive this asset"),
  ("line_full", "The trust limit for this asset is too low"),
  ("no_issuer", "The issuer of the asset does not exist"),
  ("too_few_offers", "There is no path connecting `send asset` to `destination asset`"),
  ("offer_cross_self", "The source would cross its own offer"),
  ("under_destmin", "The destination amount would be under the requested minimum"),
  ("over_sendmax", "The send amount would be over the requested maximum"),
  ("sell_no_trust", "The source does not trust `selling asset`"),
  ("buy_no_trust", "The source does not trust `buying asset`"),
  ("buy_not_authorized", "The source is not authorized to buy this asset"),
  ("sell_not_authorized", "The source is not authorized to sell this asset"),
  ("sell_no_issuer", "The issuer of `selling asset` does not exist"),
  ("buy_no_issuer", "The issuer of `buying asset` does not exist"),
  ("offer_not_found", "There is no offer with that `offerId`"),
  ("too_may_signers", "The source already has the maximum of 20 signers"),
  ("bad_flags", "The flags set and/or cleared are invalid by themselves or in combination"),
  ("invalid_inflation", "The inflation destination does not exist"),
  ("options_cant_change", "The source can no longer change this option"),
  ("unknown_flag", "This flag is unknown"),
  ("threshold_out_of_range", "The value of a key weight or threshold is out of range"),
  ("bad_signer", "The master key cannot be added as an additional signer"),
  ("invalid_home_domain", "The home domain is malformed"),
  ("invalid_limit", "The limit is too low for current the current balance and liabilities"),
  ("self_not_allowed", "The source already trust its own asset"),
  ("no_trust_line", "The target account does not trust the source"),
  ("trust_not_required", "The source has not set the `auth_required` flag"),
  ("trust_cant_revoke", "The source is not allowed to revoke this trustline"),
  ("immutable_set", "The source has the `auth_immutable` flag set"),
  ("has_sub_entries", "The source account still has opened trustlines or offers"),
  ("merge_seqnum_too_far", "The source sequence number is too high"),
  ("merge_dest_full", "The destination cannot receive the source Lumens"),
  ("not_time", "Inflation can only run once a week"),
  ("not_supported_yet", "The network does not support this feature yet"),
  ("not_found", "The data entry does not exist"),
  ("invalid_name", "The data entry name is not valid"),
  ("bad_seq", "The sequence number is invalid")]

/-! ## Data model

The structures below model the JavaScript objects the entry file probes:
a field of type `Option _` is `none` when the property is absent/`undefined`.
-/

/-- `data.extras.result_codes`: the raw diagnostic code bundle. -/
structure ResultCodes where
  transaction : String
  operations : Option (List String) := none
deriving DecidableEq

/-- `data.extras`: nested diagnostic structure of a rejection response. -/
structure Extras where
  result_codes : ResultCodes
deriving DecidableEq

/-- `response.data`: payload object carried by a rejection response
(`message` is the free-text field read on the StellarGuard branch). -/
structure RData where
  extras : Option Extras := none
  message : Option String := none
deriving DecidableEq

/-- A response-like JavaScript object: every property the entry file ever
reads on a (possibly unwrapped) response value. `links_transaction_href` is
`none` when the `_links.transaction` chain is broken (so that reading `.href`
throws), and `some h` when `_links.transaction` exists with `href = h`. -/
structure Response where
  hash : Option String := none
  ledger : Option Nat := none
  offerResults : Option String := none
  links_transaction_href : Option (Option String) := none
  data : Option RData := none
  stellarGuard : Bool := false
  config_url : Option String := none
  status : Option Nat := none
  statusText : Option String := none
  message : Option String := none
deriving DecidableEq

/-- A raw constructor argument / rejection value: either a plain object or an
`Error`; `response` models the optional `.response` property of an error
wrapper, `fields` the object's own directly-readable properties. -/
structure RawInput where
  isError : Bool := false
  response : Option Response := none
  fields : Response := {}
deriving DecidableEq

/-- Outcome of a construction attempt that can throw. `invalidResponseShape`
models `throw new Error("Not a Horizon txResponse")`; `typeError` models a
JavaScript TypeError from reading a property of `undefined`. -/
inductive JsErr where
  | invalidResponseShape
  | typeError
deriving DecidableEq

/-- The result record assembled by the library (all construction paths). -/
structure TxResult where
  validated : Bool
  title : String
  hash : Option String := none
  ledger : Option Nat := none
  offerResults : Option String := none
  link : Option String := none
  codes : Option ResultCodes := none
  errors : Option (List String) := none
deriving DecidableEq

/-- The `.lock()`ed cosmicLink object, as probed by `forCosmicLink`. -/
structure CosmicLink where
  callback : Option String := none
  transaction_hash : String := ""
deriving DecidableEq

/-! ## Utilities (describeTxCode / describeOpCode) -/

/-- JavaScript truthiness of a possibly-absent string property. -/
def truthy : Option String → Bool
  | some s => s != ""
  | none => false

/-- `TxResult.describeTxCode`: `codes.tx[code.substr(3)]` with the
`desc || fallback` defaulting of the source. -/
def describeTxCode (code : String) : String :=
  match txCodes.lookup (code.drop 3) with
  | some desc => if desc == "" then "An unknown error occurred: tx_" ++ code else desc
  | none => "An unknown error occurred: tx_" ++ code

/-- `TxResult.describeOpCode`: `codes.op[code.substr(3)]` with the
`desc || fallback` defaulting of the source. -/
def describeOpCode (code : String) : String :=
  match opCodes.lookup (code.drop 3) with
  | some desc => if desc == "" then "An unknown error occurred: op_" ++ code else desc
  | none => "An unknown error occurred: op_" ++ code

/-! ## Failure error list (failure.errors) -/

/-- One indexed operation code through the source's map/map/filter chain:
`code !== "op_success" && describeOpCode(code)` then
`msg && fmt` then `filter(msg => msg)`. A falsy intermediate value
(`false` or `""`) is `none`. -/
def opStep (p : Nat × String) : Option String :=
  if p.2 == "op_success" then none
  else
    let msg := describeOpCode p.2
    if msg == "" then none
    else some ("Operation " ++ toString (p.1 + 1) ++ ": " ++ msg ++ ".")

/-- `failure.errors`: transaction-level message when `codes.operations` is
absent, otherwise the formatted non-success operation messages. -/
def failureErrors (rc : ResultCodes) : List String :=
  match rc.operations with
  | none => [describeTxCode rc.transaction]
  | some ops => ops.enum.filterMap opStep

/-! ## Constructor (new TxResult) -/

/-- The success parser: copies `hash`, `ledger`, `offerResults` verbatim and
reads `response._links.transaction.href` without a guard (a broken `_links`
chain throws a TypeError). -/
def successBuild (r : Response) : Except JsErr TxResult :=
  match r.links_transaction_href with
  | none => .error .typeError
  | some href =>
    .ok
      { validated := true, title := "The transaction has been validated",
        hash := r.hash, ledger := r.ledger, offerResults := r.offerResults, link := href }

/-- The failure parser: records the raw code bundle and the derived errors. -/
def failureBuild (rc : ResultCodes) : TxResult :=
  { validated := false, title := "The transaction has been rejected",
    codes := some rc, errors := some (failureErrors rc) }

/-- The unwrapping step of the constructor:
`if (txResponse instanceof Error && txResponse.response) txResponse = txResponse.response`. -/
def unwrap (x : RawInput) : Response :=
  match x.isError, x.response with
  | true, some r => r
  | _, _ => x.fields

/-- Whether `txResponse.data && txResponse.data.extras` is truthy. -/
def hasExtras (r : Response) : Bool :=
  match r.data with
  | some d => d.extras.isSome
  | none => false

/-- The constructor body after unwrapping: classify by shape and build. -/
def buildFrom (r : Response) : Except JsErr TxResult :=
  if truthy r.hash then successBuild r
  else if hasExtras r then
    match r.data with
    | some d =>
      match d.extras with
      | some ex => .ok (failureBuild ex.result_codes)
      | none => .error .invalidResponseShape
    | none => .error .invalidResponseShape
  else .error .invalidResponseShape

/-- `new TxResult(txResponse)` on a defined argument. -/
def txResultNew (x : RawInput) : Except JsErr TxResult :=
  buildFrom (unwrap x)

/-- `new TxResult(txResponse)` where the argument may be `undefined`
(`undefined.hash` throws a TypeError before any classification). -/
def txResultNewJs : Option RawInput → Except JsErr TxResult
  | none => .error .typeError
  | some x => txResultNew x

/-! ## fromPromise -/

/-- `Promise.prototype.finally`: the callback is invoked with no argument and
its return value is discarded; only a throw from the callback replaces the
promise's own outcome. -/
def promiseFinally {α β : Type} (p : Except JsErr α) (cbOutcome : Except JsErr β) :
    Except JsErr α :=
  match cbOutcome with
  | .error e => .error e
  | .ok _ => p

/-- `TxResult.fromPromise`: `promise.finally((response) => new TxResult(response))`.
The `finally` callback receives no argument, so `response` is `undefined`, and
`finally` propagates the original settlement, not the callback's value. -/
def fromPromise (p : Except JsErr RawInput) : Except JsErr RawInput :=
  promiseFinally p (txResultNewJs none)

/-! ## Relay adapter (TxResult.forCosmicLink) -/

/-- A regex word character, `\w` = `[A-Za-z0-9_]`. -/
def isWordChar (c : Char) : Bool :=
  let n := c.toNat
  (48 ≤ n && n ≤ 57) || (65 ≤ n && n ≤ 90) || (97 ≤ n && n ≤ 122) || n == 95

/-- Whether `u` starts with `p` (character-list computation, so that concrete
instances evaluate in the kernel). -/
def strHasPrefix (u p : String) : Bool :=
  p.data.isPrefixOf u.data

/-- Whether `u.match(/^https:\/\/(\w+\.)?stellarguard\.me/)` is truthy: after
`https://`, either `stellarguard.me` directly or one dot-terminated label of
word characters followed by `stellarguard.me`. -/
def matchesSgUrl (u : String) : Bool :=
  strHasPrefix u "https://" &&
    (let rest := u.data.drop 8
     ("stellarguard.me".data.isPrefixOf rest ||
       (let label := rest.takeWhile isWordChar
        !label.isEmpty &&
          (match rest.drop label.length with
           | '.' :: tail => "stellarguard.me".data.isPrefixOf tail
           | _ => false))))

/-- `cosmicLink.callback.replace(/^https?:\/\/([^/]*)\/.*/, "$1")`: extract the
host part; when the pattern does not match the string is returned unchanged
(URLs are assumed newline-free, as `.` does not match newlines). -/
def callbackDomain (cb : String) : String :=
  let afterScheme : Option (List Char) :=
    if strHasPrefix cb "https://" then some (cb.data.drop 8)
    else if strHasPrefix cb "http://" then some (cb.data.drop 7)
    else none
  match afterScheme with
  | none => cb
  | some rest =>
    let host := rest.takeWhile (fun c => c != '/')
    match rest.drop host.length with
    | '/' :: _ => String.mk host
    | _ => cb

/-- `makeResultForDomain`: builds a relay-channel result directly on
`TxResult.prototype`, bypassing the constructor. -/
def makeResultForDomain (domain : String) (cosmicLink : CosmicLink) (isValidated : Bool) :
    TxResult :=
  if isValidated then
    { validated := true, title := "The transaction has been submitted to " ++ domain,
      hash := some cosmicLink.transaction_hash }
  else
    { validated := false, title := "The transaction has been rejected by " ++ domain,
      errors := some [] }

/-- `result.errors.push(msg)` on a result whose `errors` list exists. -/
def pushError (r : TxResult) (msg : String) : TxResult :=
  { r with errors := some (r.errors.getD [] ++ [msg]) }

/-- `a || b` under a truthiness guard: the first truthy string, if any. -/
def orTruthy (a b : Option String) : Option String :=
  if truthy a then a else if truthy b then b else none

/-- The channel probing of `TxResult.forCosmicLink` on the resolved response
value, in source order: StellarGuard flag, StellarGuard URL pattern,
callback, direct. -/
def forCosmicLinkCore (cosmicLink : CosmicLink) (response : Response) :
    Except JsErr TxResult :=
  if response.stellarGuard then
    .ok (makeResultForDomain "StellarGuard.me" cosmicLink true)
  else if (match response.config_url with | some u => matchesSgUrl u | none => false) then
    match response.data with
    | none => .error .typeError
    | some d =>
      match d.message with
      | some m =>
        .ok (if m != "" then pushError (makeResultForDomain "StellarGuard.me" cosmicLink false) m
             else makeResultForDomain "StellarGuard.me" cosmicLink false)
      | none => .ok (makeResultForDomain "StellarGuard.me" cosmicLink false)
  else if truthy cosmicLink.callback then
    if !(response.status == some 200) then
      match orTruthy response.statusText response.message with
      | some m =>
        .ok (pushError
          (makeResultForDomain (callbackDomain (cosmicLink.callback.getD "")) cosmicLink
            (response.status == some 200)) m)
      | none =>
        .ok (makeResultForDomain (callbackDomain (cosmicLink.callback.getD "")) cosmicLink
          (response.status == some 200))
    else
      .ok (makeResultForDomain (callbackDomain (cosmicLink.callback.getD "")) cosmicLink
        (response.status == some 200))
  else
    buildFrom response

/-- `TxResult.forCosmicLink`, applied to the settled outcome of
`cosmicLink.send()`: the `catch` handler replaces a rejection value `e` by
`e.response || e`, then the channels are probed by `forCosmicLinkCore`. -/
def forCosmicLink (cosmicLink : CosmicLink) (outcome : Except RawInput Response) :
    Except JsErr TxResult :=
  forCosmicLinkCore cosmicLink
    (match outcome with
     | .ok r => r
     | .error e =>
       match e.response with
       | some r => r
       | none => e.fields)

/-! ## Helper lemmas -/

/-- The unknown-code fallback messages are nonempty strings. -/
theorem fallback_ne_empty (pre c : String) (h : pre.data ≠ []) : pre ++ c ≠ "" := by
  intro hc
  have hd := congrArg String.data hc
  rw [String.data_append] at hd
  exact h (List.append_eq_nil.mp hd).1

/-- `describeOpCode` never returns the empty string (the `desc || fallback`
defaulting replaces an empty entry by the nonempty fallback). -/
theorem describeOpCode_ne_empty (c : String) : describeOpCode c ≠ "" := by
  unfold describeOpCode
  cases hx : opCodes.lookup (c.drop 3) with
  | none => exact fallback_ne_empty _ c (by decide)
  | some d =>
    by_cases hd : d = ""
    · simp only [hd]
      exact fallback_ne_empty _ c (by decide)
    · simp only [beq_eq_false_iff_ne.mpr hd, if_false]
      exact hd

/-- `opStep` in closed form: the sentinel is dropped, everything else is
formatted with its 1-based index. -/
theorem opStep_eq (p : Nat × String) :
    opStep p = if p.2 ≠ "op_success"
      then some ("Operation " ++ toString (p.1 + 1) ++ ": " ++ describeOpCode p.2 ++ ".")
      else none := by
  unfold opStep
  by_cases h : p.2 = "op_success"
  · simp [h]
  · simp [h, beq_eq_false_iff_ne.mpr h, beq_eq_false_iff_ne.mpr (describeOpCode_ne_empty p.2)]

/-- The map/map/filter chain of `failure.errors` equals filtering out the
sentinel and then formatting. -/
theorem filterMap_opStep (l : List (Nat × String)) :
    l.filterMap opStep
      = (l.filter (fun p => p.2 ≠ "op_success")).map
          (fun p => "Operation " ++ toString (p.1 + 1) ++ ": " ++ describeOpCode p.2 ++ ".") := by
  induction l with
  | nil => rfl
  | cons a t ih =>
    rw [List.filterMap_cons, List.filter_cons, opStep_eq]
    by_cases h : a.2 = "op_success"
    · simp [h, ih]
    · simp [h, ih]

/-- Filtering an enumerated list by a predicate on the element part keeps as
many entries as filtering the plain list. -/
theorem enumFrom_filter_length (q : String → Bool) (n : Nat) (l : List String) :
    ((List.enumFrom n l).filter (fun p => q p.2)).length = (l.filter q).length := by
  induction l generalizing n with
  | nil => rfl
  | cons a t ih =>
    simp only [List.enumFrom, List.filter_cons]
    by_cases h : q a
    · simp [h, ih]
    · simp [h, ih]

/-- Specialization of `enumFrom_filter_length` to `List.enum`. -/
theorem enum_filter_length (q : String → Bool) (l : List String) :
    ((l.enum).filter (fun p => q p.2)).length = (l.filter q).length :=
  enumFrom_filter_length q 0 l

/-- Shape of every value the constructor returns: either the success record
(with a truthy hash copied verbatim) or a failure record built from the
extracted code bundle. -/
theorem txResultNew_ok_shape (x : RawInput) (r : TxResult) (h : txResultNew x = .ok r) :
    (∃ s href, (unwrap x).hash = some s ∧ s ≠ "" ∧
      r = { validated := true, title := "The transaction has been validated",
            hash := some s, ledger := (unwrap x).ledger,
            offerResults := (unwrap x).offerResults, link := href })
    ∨ (∃ rc, r = failureBuild rc) := by
  unfold txResultNew buildFrom successBuild at h
  split at h
  case isTrue htr =>
    split at h
    · exact absurd h (by simp)
    case h_2 href hl =>
      simp only [Except.ok.injEq] at h
      subst h
      cases hh : (unwrap x).hash with
      | none => rw [hh] at htr; exact absurd htr (by decide)
      | some s =>
        have hs : s ≠ "" := by
          rw [hh] at htr
          simpa [truthy] using htr
        exact Or.inl ⟨s, href, rfl, hs, rfl⟩
  case isFalse htr =>
    split at h
    · split at h
      · split at h
        · simp only [Except.ok.injEq] at h
          exact Or.inr ⟨_, h.symm⟩
        · exact absurd h (by simp)
      · exact absurd h (by simp)
    · exact absurd h (by simp)

/-! ## Claim C1 -/

/-- Claim C1: for every rejection result whose code bundle contains an
operations list, `errors` is exactly the non-sentinel codes, in relative
order, each formatted as
`"Operation " ++ (i + 1) ++ ": " ++ describeOpCode code ++ "."` from its
0-based index `i`, and its length is the number of non-sentinel codes. -/
theorem c1_operation_errors (x : RawInput) (r : TxResult) (rc : ResultCodes)
    (ops : List String) (hok : txResultNew x = .ok r) (hc : r.codes = some rc)
    (hops : rc.operations = some ops) :
    r.errors = some ((ops.enum.filter (fun p => p.2 ≠ "op_success")).map
        (fun p => "Operation " ++ toString (p.1 + 1) ++ ": " ++ describeOpCode p.2 ++ "."))
    ∧ (r.errors.getD []).length = (ops.filter (fun c => c ≠ "op_success")).length := by
  rcases txResultNew_ok_shape x r hok with ⟨s, href, _, _, hr⟩ | ⟨rc', hr⟩
  · subst hr; simp at hc
  · subst hr
    have hrc : rc' = rc := by simpa [failureBuild] using hc
    subst hrc
    constructor
    · show some (failureErrors rc') = _
      simp only [failureErrors, hops]
      rw [filterMap_opStep]
    · show ((some (failureErrors rc')).getD []).length = _
      simp only [failureErrors, hops]
      rw [filterMap_opStep]
      simp only [Option.getD_some, List.length_map]
      exact enumFrom_filter_length (fun c => decide (c ≠ "op_success")) 0 ops

/-- Codes of the spec's two-operation rejection example. -/
def opsFailCodes : ResultCodes :=
  { transaction := "tx_failed", operations := some ["op_success", "op_underfunded"] }

/-- Rejection response carrying `opsFailCodes`. -/
def opsFailInput : RawInput :=
  { fields := { data := some { extras := some { result_codes := opsFailCodes } } } }

/-- Result built from `opsFailInput`. -/
def opsFailResult : TxResult := failureBuild opsFailCodes

/-- Claim C1, witness: `{transaction: "tx_failed",
operations: ["op_success", "op_underfunded"]}` yields the single message
`"Operation 2: The source does not have enough funds."`. -/
theorem c1_witness :
    txResultNew opsFailInput = .ok opsFailResult
    ∧ opsFailResult.codes = some opsFailCodes
    ∧ opsFailCodes.operations = some ["op_success", "op_underfunded"]
    ∧ opsFailResult.errors = some ["Operation 2: The source does not have enough funds."]
    ∧ (opsFailResult.errors.getD []).length = 1 := by
  have h := c1_operation_errors opsFailInput opsFailResult opsFailCodes
    ["op_success", "op_underfunded"] rfl rfl rfl
  refine ⟨rfl, rfl, rfl, ?_, ?_⟩
  · rw [h.1]; decide
  · rw [h.2]; decide

/-! ## Claim C2 -/

/-- Claim C2: for every rejection result whose code bundle has no operations
list, `errors` is the one-element list holding exactly
`describeTxCode transactionCode` — nothing (in particular no trailing
period) is appended on this path. -/
theorem c2_transaction_error (x : RawInput) (r : TxResult) (rc : ResultCodes)
    (hok : txResultNew x = .ok r) (hc : r.codes = some rc)
    (hops : rc.operations = none) :
    r.errors = some [describeTxCode rc.transaction] := by
  rcases txResultNew_ok_shape x r hok with ⟨s, href, _, _, hr⟩ | ⟨rc', hr⟩
  · subst hr; simp at hc
  · subst hr
    have hrc : rc' = rc := by simpa [failureBuild] using hc
    subst hrc
    show some (failureErrors rc') = _
    simp only [failureErrors, hops]

/-- Codes of the spec's bad-sequence rejection example. -/
def seqCodes : ResultCodes := { transaction := "tx_bad_seq" }

/-- Rejection response carrying `seqCodes` (no operations key). -/
def seqInput : RawInput :=
  { fields := { data := some { extras := some { result_codes := seqCodes } } } }

/-- Result built from `seqInput`. -/
def seqResult : TxResult := failureBuild seqCodes

/-- Claim C2, witness: `{transaction: "tx_bad_seq"}` yields exactly
`["The transaction sequence number is invalid"]`. -/
theorem c2_witness :
    txResultNew seqInput = .ok seqResult ∧ seqResult.codes = some seqCodes
    ∧ seqCodes.operations = none
    ∧ seqResult.errors = some ["The transaction sequence number is invalid"] := by
  have h := c2_transaction_error seqInput seqResult seqCodes rfl rfl rfl
  exact ⟨rfl, rfl, rfl, by rw [h]; decide⟩

/-! ## Claim C3 -/

/-- Claim C3, counterexample: `tx_foo` is absent from the transaction
dictionary, yet `describeTxCode` does not return
`"An unknown error occurred: <prefix><key>"` (with `key` the code minus its
first 3 characters): the source interpolates the full code after the `tx_`
prefix, producing a doubled prefix. -/
theorem c3_counterexample :
    txCodes.lookup (String.drop "tx_foo" 3) = none
    ∧ describeTxCode "tx_foo" = "An unknown error occurred: tx_tx_foo"
    ∧ describeTxCode "tx_foo" ≠ "An unknown error occurred: " ++ "tx_" ++ String.drop "tx_foo" 3 :=
  ⟨by decide, rfl, by decide⟩

/-- Claim C3, amended: each resolver is quantified over its own dictionary
alone. For every code whose stripped key is absent from the transaction
dictionary, `describeTxCode` never throws and returns
`"An unknown error occurred: "` followed by the prefix and the full original
code — a string containing the literal original code and the word `unknown`;
and likewise for `describeOpCode` over the operation dictionary, regardless
of what the other dictionary holds under that key. -/
theorem c3_unknown_code_fallback (c : String) :
    (txCodes.lookup (c.drop 3) = none →
      describeTxCode c = "An unknown error occurred: tx_" ++ c
      ∧ (∃ p q, (describeTxCode c).data = p ++ c.data ++ q)
      ∧ (∃ p q, (describeTxCode c).data = p ++ "unknown".data ++ q))
    ∧ (opCodes.lookup (c.drop 3) = none →
      describeOpCode c = "An unknown error occurred: op_" ++ c
      ∧ (∃ p q, (describeOpCode c).data = p ++ c.data ++ q)
      ∧ (∃ p q, (describeOpCode c).data = p ++ "unknown".data ++ q)) := by
  constructor
  · intro htx
    have h1 : describeTxCode c = "An unknown error occurred: tx_" ++ c := by
      simp only [describeTxCode, htx]
    have d1 : (describeTxCode c).data = "An unknown error occurred: tx_".data ++ c.data := by
      rw [h1, String.data_append]
    refine ⟨h1,
      ⟨"An unknown error occurred: tx_".data, [], by rw [d1]; simp⟩,
      ⟨"An ".data, " error occurred: tx_".data ++ c.data, ?_⟩⟩
    rw [d1]
    rw [show "An unknown error occurred: tx_".data
      = "An ".data ++ "unknown".data ++ " error occurred: tx_".data from by decide]
    simp
  · intro hop
    have h2 : describeOpCode c = "An unknown error occurred: op_" ++ c := by
      simp only [describeOpCode, hop]
    have d2 : (describeOpCode c).data = "An unknown error occurred: op_".data ++ c.data := by
      rw [h2, String.data_append]
    refine ⟨h2,
      ⟨"An unknown error occurred: op_".data, [], by rw [d2]; simp⟩,
      ⟨"An ".data, " error occurred: op_".data ++ c.data, ?_⟩⟩
    rw [d2]
    rw [show "An unknown error occurred: op_".data
      = "An ".data ++ "unknown".data ++ " error occurred: op_".data from by decide]
    simp

/-- Claim C3, witness at cross-dictionary collisions: `tx_underfunded` has a
stripped key absent from the transaction dictionary yet present in the
operation dictionary, and `op_bad_auth` the converse — each resolver still
falls back on its own dictionary's miss. -/
theorem c3_witness :
    txCodes.lookup ("tx_underfunded".drop 3) = none
    ∧ opCodes.lookup ("tx_underfunded".drop 3) = some "The source does not have enough funds"
    ∧ describeTxCode "tx_underfunded" = "An unknown error occurred: tx_" ++ "tx_underfunded"
    ∧ opCodes.lookup ("op_bad_auth".drop 3) = none
    ∧ txCodes.lookup ("op_bad_auth".drop 3)
        = some "The transaction doesn\x27t have enough signatures"
    ∧ describeOpCode "op_bad_auth" = "An unknown error occurred: op_" ++ "op_bad_auth" :=
  ⟨by decide, by decide,
    ((c3_unknown_code_fallback "tx_underfunded").1 (by decide)).1,
    by decide, by decide,
    ((c3_unknown_code_fallback "op_bad_auth").2 (by decide)).1⟩

/-! ## Claim C5 -/

/-- Claim C5: every input which, after unwrapping an error wrapper with an
embedded response, neither carries a truthy top-level `hash` nor a nested
`data.extras` structure makes the constructor fail with the
invalid-response-shape error; no result is produced. -/
theorem c5_invalid_response_shape (x : RawInput)
    (hh : truthy (unwrap x).hash = false) (he : hasExtras (unwrap x) = false) :
    txResultNew x = .error .invalidResponseShape := by
  simp [txResultNew, buildFrom, hh, he]

/-- Models the `{foo: "bar"}` argument of the test suite: an object carrying
none of the properties the constructor probes. -/
def fooBarInput : RawInput := {}

/-- Claim C5, witness: `new TxResult({foo: "bar"})` throws the
invalid-shape error. -/
theorem c5_witness :
    truthy (unwrap fooBarInput).hash = false ∧ hasExtras (unwrap fooBarInput) = false
    ∧ txResultNew fooBarInput = .error .invalidResponseShape :=
  ⟨rfl, rfl, c5_invalid_response_shape fooBarInput rfl rfl⟩

/-! ## Claim C8 -/

/-- Claim C8 (code bug): `fromPromise` never resolves to a `TxResult` at all.
`Promise.prototype.finally` invokes its callback with no argument — so the
callback evaluates `new TxResult(undefined)`, which throws a TypeError — and
discards the callback's value anyway; the returned promise therefore rejects
with that TypeError for every input promise, resolved or rejected, instead of
resolving to the result built from the settled value. -/
theorem c8_fromPromise_never_resolves (p : Except JsErr RawInput) :
    fromPromise p = .error .typeError := rfl

/-! ## Claim C10 -/

/-- Models `{hash: "abc"}`: a truthy hash with no `_links` structure. -/
def hashOnlyInput : RawInput := { fields := { hash := some "abc" } }

/-- Claim C10: on an input with a truthy `hash` but no `_links.transaction`
structure the constructor neither produces a result nor raises the
invalid-shape error: the success builder's unguarded
`response._links.transaction.href` access throws a TypeError. -/
theorem c10_unguarded_link_access :
    txResultNew hashOnlyInput = .error .typeError
    ∧ JsErr.typeError ≠ JsErr.invalidResponseShape :=
  ⟨rfl, by decide⟩

/-! ## Claim C4 -/

/-- A success payload whose `_links.transaction.href` does not end with the
transaction hash. -/
def oddLinkInput : RawInput :=
  { fields := { hash := some "d89c007e", ledger := some 370369,
                links_transaction_href := some (some "https://example.org/elsewhere") } }

/-- Result built from `oddLinkInput`. -/
def oddLinkResult : TxResult :=
  { validated := true, title := "The transaction has been validated",
    hash := some "d89c007e", ledger := some 370369,
    link := some "https://example.org/elsewhere" }

/-- Claim C4, counterexample: the constructor does not build the link from an
explorer base path and the hash; it copies `_links.transaction.href`
verbatim, so a success payload with `hash = "d89c007e"` and an unrelated href
yields a link that does not end in `"d89c007e"`. -/
theorem c4_counterexample :
    txResultNew oddLinkInput = .ok oddLinkResult
    ∧ oddLinkResult.hash = some "d89c007e"
    ∧ oddLinkResult.link = some "https://example.org/elsewhere"
    ∧ ("d89c007e".data.isSuffixOf "https://example.org/elsewhere".data) = false :=
  ⟨rfl, rfl, rfl, by decide⟩

/-- Claim C4, amended: for every success payload (truthy `hash`) with an
intact `_links.transaction` chain, the result has `validated = true`, the
fixed title, `hash`/`ledger`/offer metadata copied verbatim, and `link`
copied verbatim from the payload's `_links.transaction.href` (which, for
genuine Horizon responses, is the explorer base path followed by the
hash). -/
theorem c4_success_fields (x : RawInput) (href : Option String)
    (hh : truthy (unwrap x).hash = true)
    (hl : (unwrap x).links_transaction_href = some href) :
    txResultNew x = .ok
      { validated := true, title := "The transaction has been validated",
        hash := (unwrap x).hash, ledger := (unwrap x).ledger,
        offerResults := (unwrap x).offerResults, link := href } := by
  simp [txResultNew, buildFrom, successBuild, hh, hl]

/-- The spec's success example response. -/
def succInput : RawInput :=
  { fields := { hash := some "d89c007e", ledger := some 370369,
                links_transaction_href :=
                  some (some "https://horizon-testnet.stellar.org/transactions/d89c007e") } }

/-- Claim C4, witness: on the spec's success example the copied link does end
with the hash. -/
theorem c4_witness :
    truthy (unwrap succInput).hash = true
    ∧ (unwrap succInput).links_transaction_href
        = some (some "https://horizon-testnet.stellar.org/transactions/d89c007e")
    ∧ txResultNew succInput = .ok
        { validated := true, title := "The transaction has been validated",
          hash := some "d89c007e", ledger := some 370369,
          link := some "https://horizon-testnet.stellar.org/transactions/d89c007e" }
    ∧ ("d89c007e".data.isSuffixOf
        "https://horizon-testnet.stellar.org/transactions/d89c007e".data) = true :=
  ⟨rfl, rfl,
    c4_success_fields succInput
      (some "https://horizon-testnet.stellar.org/transactions/d89c007e") rfl rfl,
    by decide⟩

/-! ## Tagged-union invariant helpers -/

/-- The tagged-union shape of a built result: a validated result carries no
error fields and does carry a hash; a rejected result carries an errors list
and none of the success fields. -/
def taggedUnion (r : TxResult) : Prop :=
  if r.validated then r.codes = none ∧ r.errors = none ∧ r.hash ≠ none
  else (∃ l, r.errors = some l) ∧ r.hash = none ∧ r.ledger = none ∧ r.link = none
    ∧ r.offerResults = none

/-- Both branches of `makeResultForDomain` satisfy the tagged-union shape. -/
theorem taggedUnion_makeResult (d : String) (lk : CosmicLink) (b : Bool) :
    taggedUnion (makeResultForDomain d lk b) := by
  cases b <;> simp [taggedUnion, makeResultForDomain]

/-- `makeResultForDomain` propagates its flag into `validated`. -/
theorem makeResult_validated (d : String) (lk : CosmicLink) (b : Bool) :
    (makeResultForDomain d lk b).validated = b := by
  cases b <;> rfl

/-- Pushing a message onto a rejected result keeps the tagged-union shape. -/
theorem taggedUnion_push (r : TxResult) (m : String) (hv : r.validated = false)
    (h : taggedUnion r) : taggedUnion (pushError r m) := by
  simp only [taggedUnion, hv, if_false] at h
  simp only [taggedUnion, pushError, hv, if_false]
  exact ⟨⟨r.errors.getD [] ++ [m], rfl⟩, h.2.1, h.2.2.1, h.2.2.2.1, h.2.2.2.2⟩

/-- Every result the constructor returns satisfies the tagged-union shape. -/
theorem taggedUnion_new (x : RawInput) (r : TxResult) (h : txResultNew x = .ok r) :
    taggedUnion r := by
  rcases txResultNew_ok_shape x r h with ⟨s, href, hh, hs, hr⟩ | ⟨rc, hr⟩
  · subst hr; simp [taggedUnion]
  · subst hr; simp [taggedUnion, failureBuild]

/-- Every result `forCosmicLinkCore` returns satisfies the tagged-union
shape. -/
theorem taggedUnion_core (lk : CosmicLink) (resp : Response) (r : TxResult)
    (h : forCosmicLinkCore lk resp = .ok r) : taggedUnion r := by
  unfold forCosmicLinkCore at h
  split at h
  · simp only [Except.ok.injEq] at h
    subst h
    exact taggedUnion_makeResult _ _ _
  · split at h
    · split at h
      · exact absurd h (by simp)
      · split at h
        · simp only [Except.ok.injEq] at h
          subst h
          split
          · exact taggedUnion_push _ _ (makeResult_validated _ _ _)
              (taggedUnion_makeResult _ _ _)
          · exact taggedUnion_makeResult _ _ _
        · simp only [Except.ok.injEq] at h
          subst h
          exact taggedUnion_makeResult _ _ _
    · split at h
      · split at h
        case isTrue hnv =>
          have hv : (resp.status == some 200) = false := by simpa using hnv
          split at h
          · simp only [Except.ok.injEq] at h
            subst h
            exact taggedUnion_push _ _ ((makeResult_validated _ _ _).trans hv)
              (taggedUnion_makeResult _ _ _)
          · simp only [Except.ok.injEq] at h
            subst h
            exact taggedUnion_makeResult _ _ _
        case isFalse hnv =>
          simp only [Except.ok.injEq] at h
          subst h
          exact taggedUnion_makeResult _ _ _
      · exact taggedUnion_new { fields := resp } r h

/-- Every result `forCosmicLink` returns satisfies the tagged-union shape. -/
theorem taggedUnion_forCosmicLink (lk : CosmicLink) (out : Except RawInput Response)
    (r : TxResult) (h : forCosmicLink lk out = .ok r) : taggedUnion r :=
  taggedUnion_core lk _ r h

/-! ## Claim C6 -/

/-- A cosmicLink submitted through a callback relay. -/
def cbLink : CosmicLink :=
  { callback := some "https://relay.example.org/cb", transaction_hash := "abc" }

/-- A transport rejection value carrying no response, no status and no
message. -/
def bareErr : RawInput := { isError := true }

/-- The relay-rejection result for `cbLink` with no relay message. -/
def relayRejEmpty : TxResult :=
  { validated := false, title := "The transaction has been rejected by relay.example.org",
    errors := some [] }

/-- Claim C6, counterexample: a relay rejection built by the
constructor-bypassing path has `validated = false` but leaves the `codes`
error field absent, so "validated=false implies the error fields (codes,
errors) are populated" fails. -/
theorem c6_counterexample :
    forCosmicLink cbLink (.error bareErr) = .ok relayRejEmpty
    ∧ relayRejEmpty.validated = false
    ∧ relayRejEmpty.codes = none :=
  ⟨rfl, rfl, rfl⟩

/-- Claim C6, amended: every result from every construction path (the
constructor, the constructor-bypassing `makeResultForDomain`, and
`forCosmicLink`) is a tagged union, never a hybrid: a validated result
carries no `codes`/`errors` and does carry a hash, and a rejected result
carries an `errors` list and none of the success fields — but `codes` is
populated only on the direct rejection path, not by the relay paths. -/
theorem c6_tagged_union (x : RawInput) (d : String) (lk lk2 : CosmicLink) (b : Bool)
    (out : Except RawInput Response) (r1 r2 : TxResult)
    (h1 : txResultNew x = .ok r1) (h2 : forCosmicLink lk2 out = .ok r2) :
    taggedUnion r1 ∧ taggedUnion (makeResultForDomain d lk b) ∧ taggedUnion r2 :=
  ⟨taggedUnion_new x r1 h1, taggedUnion_makeResult d lk b,
    taggedUnion_forCosmicLink lk2 out r2 h2⟩

/-- A transport rejection value carrying only an error message. -/
def netErr : RawInput :=
  { isError := true, fields := { message := some "Network Error" } }

/-- The relay-rejection result for `cbLink` holding the transport error's
message. -/
def relayNetResult : TxResult :=
  { validated := false, title := "The transaction has been rejected by relay.example.org",
    errors := some ["Network Error"] }

/-- Claim C6, witness: the invariant evaluated on a direct rejection, a
relay-confirmed record and a callback rejection. -/
theorem c6_witness :
    txResultNew seqInput = .ok seqResult
    ∧ forCosmicLink cbLink (.error netErr) = .ok relayNetResult
    ∧ taggedUnion seqResult
    ∧ taggedUnion (makeResultForDomain "StellarGuard.me" cbLink true)
    ∧ taggedUnion relayNetResult := by
  have h := c6_tagged_union seqInput "StellarGuard.me" cbLink cbLink true
    (.error netErr) seqResult relayNetResult rfl rfl
  exact ⟨rfl, rfl, h.1, h.2.1, h.2.2⟩

/-! ## Claim C7 -/

/-- Codes of a rejection whose operations all carry the success sentinel. -/
def allSuccessCodes : ResultCodes :=
  { transaction := "tx_failed", operations := some ["op_success"] }

/-- Rejection response carrying `allSuccessCodes`. -/
def allSuccessInput : RawInput :=
  { fields := { data := some { extras := some { result_codes := allSuccessCodes } } } }

/-- Result built from `allSuccessInput`. -/
def allSuccessResult : TxResult := failureBuild allSuccessCodes

/-- Claim C7, counterexample: a direct validator rejection (not a relay
rejection — `codes` is populated) whose operation codes are all the sentinel
produces an empty `errors` list, so "every other rejection path produces at
least one error message" fails. -/
theorem c7_counterexample :
    txResultNew allSuccessInput = .ok allSuccessResult
    ∧ allSuccessResult.validated = false
    ∧ allSuccessResult.codes = some allSuccessCodes
    ∧ allSuccessResult.errors = some [] :=
  ⟨rfl, rfl, rfl, rfl⟩

/-- Claim C7, amended: on every rejected result `errors` is never absent; on
the direct path it can be empty only when an operations list is present and
every entry is the success sentinel (relay/callback rejections may also leave
it empty when the relay supplies no message). -/
theorem c7_errors_never_null (x : RawInput) (lk : CosmicLink)
    (out : Except RawInput Response) (r1 r2 : TxResult)
    (h1 : txResultNew x = .ok r1) (hv1 : r1.validated = false)
    (h2 : forCosmicLink lk out = .ok r2) (hv2 : r2.validated = false) :
    (∃ l, r1.errors = some l) ∧ (∃ l, r2.errors = some l)
    ∧ (r1.errors = some [] →
        ∃ rc ops, r1.codes = some rc ∧ rc.operations = some ops
          ∧ ops.all (fun c => c == "op_success") = true) := by
  have t1 := taggedUnion_new x r1 h1
  have t2 := taggedUnion_forCosmicLink lk out r2 h2
  simp only [taggedUnion, hv1, if_false] at t1
  simp only [taggedUnion, hv2, if_false] at t2
  refine ⟨t1.1, t2.1, ?_⟩
  intro hemp
  rcases txResultNew_ok_shape x r1 h1 with ⟨s, href, hh, hs, hr⟩ | ⟨rc, hr⟩
  · subst hr; simp at hv1
  · subst hr
    have hfe : failureErrors rc = [] := by simpa [failureBuild] using hemp
    cases hops : rc.operations with
    | none =>
      simp only [failureErrors, hops] at hfe
      exact absurd hfe (by simp)
    | some ops =>
      refine ⟨rc, ops, rfl, hops, ?_⟩
      simp only [failureErrors, hops, filterMap_opStep] at hfe
      rw [List.map_eq_nil_iff] at hfe
      have hlen := congrArg List.length hfe
      rw [enum_filter_length (fun c => decide (c ≠ "op_success")) ops] at hlen
      have hnil := List.length_eq_zero.mp hlen
      rw [List.filter_eq_nil_iff] at hnil
      rw [List.all_eq_true]
      intro c hc
      have := hnil c hc
      simpa using this

/-- Claim C7, witness: a bad-sequence direct rejection and a
message-carrying callback rejection both populate `errors` with at least one
entry. -/
theorem c7_witness :
    txResultNew seqInput = .ok seqResult ∧ seqResult.validated = false
    ∧ forCosmicLink cbLink (.error netErr) = .ok relayNetResult
    ∧ relayNetResult.validated = false
    ∧ (∃ l, seqResult.errors = some l) ∧ (∃ l, relayNetResult.errors = some l) := by
  have h := c7_errors_never_null seqInput cbLink (.error netErr) seqResult relayNetResult
    rfl rfl rfl rfl
  exact ⟨rfl, rfl, rfl, rfl, h.1, h.2.1⟩

/-! ## Claim C9 -/

/-- A cosmicLink with no callback (direct or StellarGuard submission). -/
def noCbLink : CosmicLink := { transaction_hash := "abc" }

/-- An axios-style transport error from a StellarGuard submission: no
embedded response, but a `config.url` naming the StellarGuard endpoint. -/
def sgTransportErr : RawInput :=
  { isError := true,
    fields := { config_url := some "https://stellarguard.me/api/transactions",
                message := some "Network Error" } }

/-- Claim C9, counterexample: a relay transport error with no embedded
response whose `config.url` matches the StellarGuard pattern is not folded
into a rejection result: the adapter's unguarded `response.data.message`
access throws a TypeError instead, so the caller does not receive a result
object. -/
theorem c9_counterexample :
    sgTransportErr.response = none
    ∧ forCosmicLink noCbLink (.error sgTransportErr) = .error .typeError :=
  ⟨rfl, rfl⟩

/-- Claim C9, amended: transport failures are folded only on the callback
channel: when the cosmicLink has a callback and the rejection value carries
no embedded response, no StellarGuard flag, no StellarGuard-matching config
URL, no status and no status text, but a nonempty message, `forCosmicLink`
returns a rejection result with that message as the sole `errors` entry
(whereas a StellarGuard-matching transport error crashes with a TypeError,
per the counterexample). -/
theorem c9_callback_transport_fold (lk : CosmicLink) (e : RawInput) (cb m : String)
    (hcb : lk.callback = some cb) (hcbne : cb ≠ "")
    (hresp : e.response = none)
    (hsg : e.fields.stellarGuard = false)
    (hcfg : (match e.fields.config_url with | some u => matchesSgUrl u | none => false) = false)
    (hstatus : e.fields.status = none)
    (hstx : e.fields.statusText = none)
    (hmsg : e.fields.message = some m) (hm : m ≠ "") :
    forCosmicLink lk (.error e) = .ok
      { validated := false,
        title := "The transaction has been rejected by " ++ callbackDomain cb,
        errors := some [m] } := by
  simp [forCosmicLink, forCosmicLinkCore, makeResultForDomain, pushError, orTruthy, truthy,
    hresp, hsg, hcfg, hcb, hcbne, hstatus, hstx, hmsg, hm]

/-- Claim C9, witness: a bare network error on the callback channel is folded
into a rejection result carrying its message. -/
theorem c9_witness :
    cbLink.callback = some "https://relay.example.org/cb"
    ∧ netErr.response = none
    ∧ forCosmicLink cbLink (.error netErr) = .ok
        { validated := false,
          title := "The transaction has been rejected by relay.example.org",
          errors := some ["Network Error"] } := by
  refine ⟨rfl, rfl, ?_⟩
  have h := c9_callback_transport_fold cbLink netErr "https://relay.example.org/cb"
    "Network Error" rfl (by decide) rfl rfl rfl rfl rfl rfl (by decide)
  rw [h]
  rfl

end TxResultSpec
